import Mathlib

set_option maxRecDepth 10000

/-!
Shallow embedding of the VPN/Proxy risk scorer `check_vpn_status` from
`src/iptrack.py` (lines 62-228) of the repository, together with theorems
about it.

Modelling conventions:
* Python strings are Lean `String`s; `str.lower()` is modelled by ASCII
  lowering (all keywords in the source are ASCII).
* The geolocation record `geo_data` is `Option GeoRecord`: `none` models a
  missing / non-dict record, for which the very first statement of the
  `try` block (`geo_data.get('isp', '').lower()`, line 73) raises and the
  outer `except Exception` handler (lines 224-227) returns the initial
  accumulator with an error indicator and debug entry appended.  With a
  string `ip` and a well-formed record, no other statement in the `try`
  body can raise outside the two inner handlers, so this is the only
  outer-exception path.
* The single third-party VPN-detection call (vpnapi.io, lines 139-172) is
  modelled by an oracle `ApiOutcome`: `fail msg` is a raised request /
  JSON exception (caught at lines 171-172, logged to debug), `noData` is a
  non-200 response or a non-dict body (nothing happens), and `flags` is a
  successful response with the three parsed booleans.
* `risk_score` is an `Int` (Python ints); every weight added is a
  non-negative literal, and line 194 clamps with `min(score, 100)`.
-/

/-- One character list starts with another (helper for substring search). -/
def segStarts : List Char → List Char → Bool
  | [], _ => true
  | _ :: _, [] => false
  | p :: ps, s :: ss => p == s && segStarts ps ss

/-- One character list occurs contiguously inside another. -/
def segInside (p : List Char) : List Char → Bool
  | [] => segStarts p []
  | s :: ss => segStarts p (s :: ss) || segInside p ss

/-- Python's `pat in s` substring test for strings. -/
def strContains (s pat : String) : Bool :=
  segInside pat.toList s.toList

/-- Python's `str.lower()` restricted to ASCII (all source keywords are ASCII). -/
def strLower (s : String) : String :=
  String.mk (s.toList.map Char.toLower)

/-- Helper for `ipParts`: split a character list on `.`. -/
def splitDotsAux : List Char → List Char → List String
  | [], acc => [String.mk acc.reverse]
  | c :: cs, acc =>
    if c = '.' then String.mk acc.reverse :: splitDotsAux cs []
    else splitDotsAux cs (c :: acc)

/-- Python's `s.split('.')` (line 175). -/
def ipParts (s : String) : List String :=
  splitDotsAux s.toList []

/-- Whitespace stripped by Python's `int()` (space, tab, newline, return). -/
def isPySpace (c : Char) : Bool :=
  c == ' ' || c == '\t' || c == '\n' || c == '\r'

/-- Strip leading and trailing whitespace from a character list. -/
def pyStrip (cs : List Char) : List Char :=
  ((cs.dropWhile isPySpace).reverse.dropWhile isPySpace).reverse

/-- Value of a decimal digit character. -/
def digitVal (c : Char) : Nat := c.toNat - 48

/-- All characters are decimal digits. -/
def allDigits (cs : List Char) : Bool := cs.all Char.isDigit

/-- Numeric value of a digit list. -/
def digitsToNat (cs : List Char) : Nat :=
  cs.foldl (fun a c => a * 10 + digitVal c) 0

/-- Python's `int(s)` for decimal strings: optional surrounding whitespace,
optional sign, then decimal digits; `none` models the raised `ValueError`.
(Digit-group underscores of Python 3.6+ are not modelled.) -/
def parsePyInt (s : String) : Option Int :=
  match pyStrip s.toList with
  | [] => none
  | c :: cs =>
    if c = '-' then
      if cs ≠ [] ∧ allDigits cs = true then some (-(digitsToNat cs : Int)) else none
    else if c = '+' then
      if cs ≠ [] ∧ allDigits cs = true then some ((digitsToNat cs : Int)) else none
    else
      if allDigits (c :: cs) = true then some ((digitsToNat (c :: cs) : Int)) else none

/-- The geolocation record consumed by the scorer: the four string fields
read at lines 73-76 and the provider `proxy` boolean read at line 127. -/
structure GeoRecord where
  isp : String
  org : String
  as_info : String
  country : String
  proxy : Bool

/-- The `vpn_indicators` dictionary built by `check_vpn_status`
(lines 64-70): the returned risk assessment. -/
structure VpnIndicators where
  is_vpn : Bool
  confidence : String
  indicators : List String
  risk_score : Int
  debug_info : List String

/-- Outcome of the vpnapi.io call (lines 151-172), supplied as an oracle. -/
inductive ApiOutcome where
  | fail (msg : String)
  | noData
  | flags (vpn proxy tor : Bool)

/-- Initial accumulator (lines 64-70).  Note the initial confidence is the
string "Low", and it is never changed on paths whose final score is
below 15. -/
def initIndicators : VpnIndicators :=
  { is_vpn := false, confidence := "Low", indicators := [], risk_score := 0,
    debug_info := [] }

/-- `vpn_keywords` (lines 82-90). -/
def vpn_keywords : List String :=
  ["vpn", "proxy", "virtual private", "private network", "tunnel", "anonymous",
   "privacy", "secure", "shield", "guard", "protect", "hide", "mask",
   "expressvpn", "nordvpn", "surfshark", "cyberghost", "purevpn",
   "hotspot shield", "windscribe", "protonvpn", "ipvanish", "vyprvpn",
   "privatevpn", "hidemyass", "tunnelbear", "zenmate", "avast secureline",
   "kaspersky secure", "mcafee safe", "norton secure", "bitdefender",
   "fastestssh", "ssh tunnel", "openvpn", "wireguard", "strongvpn"]

/-- `datacenter_keywords` (lines 92-99). -/
def datacenter_keywords : List String :=
  ["hosting", "datacenter", "data center", "cloud", "server", "vps",
   "dedicated", "colocation", "colo", "infrastructure", "services",
   "amazon", "google", "microsoft", "digitalocean", "linode", "vultr",
   "ovh", "hetzner", "cloudflare", "fastly", "maxcdn", "keycdn",
   "contabo", "scaleway", "rackspace", "godaddy", "hostgator",
   "bluehost", "dreamhost", "namecheap", "hostinger"]

/-- `mobile_keywords` (line 131). -/
def mobile_keywords : List String :=
  ["mobile", "cellular", "wireless", "telecom", "communications"]

/-- `vpn_friendly_countries` (lines 184-187). -/
def vpn_friendly_countries : List String :=
  ["netherlands", "switzerland", "panama", "romania", "bulgaria",
   "moldova", "seychelles", "british virgin islands", "cayman islands"]

/-- `traditional_telecoms` (lines 209-214). -/
def traditional_telecoms : List String :=
  ["comcast", "verizon", "at&t", "charter", "cox", "spectrum",
   "british telecom", "bt", "virgin media", "sky", "orange",
   "vodafone", "telefonica", "deutsche telekom", "t-mobile",
   "sprint", "rogers", "bell canada", "telus", "shaw"]

/-- Hosting words of the compound country signal (line 190). -/
def hosting_words : List String :=
  ["hosting", "server", "cloud", "datacenter"]

/-- Last octets of the "common VPN server IP pattern" (line 178). -/
def pattern_octets : List Int := [1, 2, 3, 10, 50, 100]

/-- `indicators.append(s); risk_score += w` — the two-line pattern used at
every scoring site. -/
def addInd (st : VpnIndicators) (s : String) (w : Int) : VpnIndicators :=
  { st with indicators := st.indicators ++ [s], risk_score := st.risk_score + w }

/-- `indicators.append(s)` without a score change (hosting keyword loop). -/
def appendInd (st : VpnIndicators) (s : String) : VpnIndicators :=
  { st with indicators := st.indicators ++ [s] }

/-- `debug_info.append(s)`. -/
def appendDbg (st : VpnIndicators) (s : String) : VpnIndicators :=
  { st with debug_info := st.debug_info ++ [s] }

/-- Lines 78-80: append the three lowered field values to the debug trail. -/
def dbgStage (isp org as_info : String) (st : VpnIndicators) : VpnIndicators :=
  { st with debug_info :=
      st.debug_info ++ ["ISP: " ++ isp, "Organization: " ++ org, "AS: " ++ as_info] }

/-- Body of the VPN-keyword loop (lines 101-110) for one keyword. -/
def kwStep (isp org as_info rawIsp rawOrg rawAs : String)
    (st : VpnIndicators) (k : String) : VpnIndicators :=
  let s1 := if strContains isp k = true then
    addInd st ("VPN keyword \"" ++ k ++ "\" found in ISP: " ++ rawIsp) 25 else st
  let s2 := if strContains org k = true then
    addInd s1 ("VPN keyword \"" ++ k ++ "\" found in Organization: " ++ rawOrg) 25 else s1
  if strContains as_info k = true then
    addInd s2 ("VPN keyword \"" ++ k ++ "\" found in AS: " ++ rawAs) 20 else s2

/-- The VPN-keyword loop (lines 101-110). -/
def kwStage (isp org as_info rawIsp rawOrg rawAs : String)
    (st : VpnIndicators) : VpnIndicators :=
  vpn_keywords.foldl (kwStep isp org as_info rawIsp rawOrg rawAs) st

/-- Body of the hosting-keyword loop (lines 113-122) for one keyword:
the pair carries `hosting_score`. -/
def hostStep (isp org as_info rawIsp rawOrg rawAs : String)
    (q : Int × VpnIndicators) (k : String) : Int × VpnIndicators :=
  let q1 := if strContains isp k = true then
    (q.1 + 10, appendInd q.2 ("Hosting keyword \"" ++ k ++ "\" in ISP: " ++ rawIsp)) else q
  let q2 := if strContains org k = true then
    (q1.1 + 10, appendInd q1.2 ("Hosting keyword \"" ++ k ++ "\" in Organization: " ++ rawOrg)) else q1
  if strContains as_info k = true then
    (q2.1 + 8, appendInd q2.2 ("Hosting keyword \"" ++ k ++ "\" in AS: " ++ rawAs)) else q2

/-- The aggregate cap of the hosting loop (lines 124-125):
`risk_score += min(hosting_score, 30)` when the loop scored anything. -/
def hostingAdd (q : Int × VpnIndicators) : VpnIndicators :=
  if 0 < q.1 then { q.2 with risk_score := q.2.risk_score + min q.1 30 } else q.2

/-- Hosting-keyword loop plus the aggregate cap (lines 112-125). -/
def hostingStage (isp org as_info rawIsp rawOrg rawAs : String)
    (st : VpnIndicators) : VpnIndicators :=
  hostingAdd
    (datacenter_keywords.foldl (hostStep isp org as_info rawIsp rawOrg rawAs) (0, st))

/-- Provider proxy flag (lines 127-129). -/
def proxyStage (proxy : Bool) (st : VpnIndicators) : VpnIndicators :=
  if proxy = true then addInd st "Proxy flag detected by ip-api.com" 40 else st

/-- Datacenter-but-not-mobile ISP signal (lines 131-137). -/
def dcStage (isp rawIsp : String) (st : VpnIndicators) : VpnIndicators :=
  if (datacenter_keywords.any (fun k => strContains isp k)) = true ∧
     (mobile_keywords.any (fun k => strContains isp k)) = false then
    addInd st ("Datacenter ISP detected: " ++ rawIsp) 20
  else st

/-- vpnapi.io signal (lines 139-172): a raised request is caught and logged
to the debug trail; positive flags score 35 / 30 / 40. -/
def apiStage (api : ApiOutcome) (st : VpnIndicators) : VpnIndicators :=
  match api with
  | .fail m => appendDbg st ("VPNAPI.io check failed: " ++ m)
  | .noData => st
  | .flags v p t =>
    let s1 := if v = true then addInd st "VPN detected by VPNAPI.io" 35 else st
    let s2 := if p = true then addInd s1 "Proxy detected by VPNAPI.io" 30 else s1
    if t = true then addInd s2 "Tor network detected by VPNAPI.io" 40 else s2

/-- Last-octet handling once the address has four dot-separated parts
(lines 177-182): `none` is the caught `ValueError` of `int()`. -/
def patternCore (o : Option Int) (st : VpnIndicators) : VpnIndicators :=
  match o with
  | some n =>
    if pattern_octets.contains n = true then
      addInd st "Common VPN server IP pattern detected" 5
    else st
  | none => appendDbg st "Could not parse IP address for pattern analysis"

/-- Common-VPN-pool last-octet signal (lines 174-182). -/
def patternStage (ip : String) (st : VpnIndicators) : VpnIndicators :=
  if (ipParts ip).length = 4 then patternCore (parsePyInt ((ipParts ip).getD 3 "")) st
  else st

/-- VPN-friendly-country compound signal (lines 184-192). -/
def countryStage (country isp : String) (st : VpnIndicators) : VpnIndicators :=
  if (vpn_friendly_countries.any (fun c => strContains country c)) = true ∧
     (hosting_words.any (fun w => strContains isp w)) = true then
    addInd st ("VPN-friendly country (" ++ country ++ ") with hosting ISP") 15
  else st

/-- Line 194: `risk_score = min(risk_score, 100)`. -/
def clampStage (st : VpnIndicators) : VpnIndicators :=
  { st with risk_score := min st.risk_score 100 }

/-- Threshold ladder (lines 196-207); scores below 15 change nothing. -/
def threshStage (st : VpnIndicators) : VpnIndicators :=
  if 70 ≤ st.risk_score then { st with is_vpn := true, confidence := "Very High" }
  else if 50 ≤ st.risk_score then { st with is_vpn := true, confidence := "High" }
  else if 30 ≤ st.risk_score then { st with is_vpn := true, confidence := "Medium" }
  else if 15 ≤ st.risk_score then { st with is_vpn := true, confidence := "Low" }
  else st

/-- Lines 220-222: flag as Low-confidence VPN when the fallback bonus
crosses the threshold. -/
def fallbackTail (st : VpnIndicators) : VpnIndicators :=
  if 15 ≤ st.risk_score then { st with is_vpn := true, confidence := "Low" } else st

/-- Non-traditional-ISP fallback (lines 209-222), applied only when the
score is still below 15 and the ISP string is non-empty. -/
def fallbackStage (isp rawIsp : String) (st : VpnIndicators) : VpnIndicators :=
  if (traditional_telecoms.any (fun t => strContains isp t)) = false ∧
     isp ≠ "" ∧ st.risk_score < 15 then
    fallbackTail (addInd st ("Non-traditional ISP detected: " ++ rawIsp) 10)
  else st

/-- All scoring signals before the clamp at line 194, in source order. -/
def preClamp (ip : String) (g : GeoRecord) (api : ApiOutcome) : VpnIndicators :=
  countryStage (strLower g.country) (strLower g.isp)
    (patternStage ip
      (apiStage api
        (dcStage (strLower g.isp) g.isp
          (proxyStage g.proxy
            (hostingStage (strLower g.isp) (strLower g.org) (strLower g.as_info)
                g.isp g.org g.as_info
              (kwStage (strLower g.isp) (strLower g.org) (strLower g.as_info)
                  g.isp g.org g.as_info
                (dbgStage (strLower g.isp) (strLower g.org) (strLower g.as_info)
                  initIndicators)))))))

/-- Clamp, threshold ladder and fallback (lines 194-222). -/
def postClamp (isp rawIsp : String) (st : VpnIndicators) : VpnIndicators :=
  fallbackStage isp rawIsp (threshStage (clampStage st))

/-- Text of the exception raised at line 73 when `geo_data` is `None`
(modelled without the quote characters of the CPython message). -/
def errorText : String := "NoneType object has no attribute get"

/-- `check_vpn_status(ip_address, geo_data)` (lines 62-228).  The `none`
branch is the outer `except Exception` handler (lines 224-227), reached
when the record is missing: it appends the exception text to both the
indicator list and the debug trail of the still-initial accumulator. -/
def check_vpn_status (ip : String) (geo : Option GeoRecord) (api : ApiOutcome) :
    VpnIndicators :=
  match geo with
  | some g => postClamp (strLower g.isp) g.isp (preClamp ip g api)
  | none =>
    appendDbg (appendInd initIndicators ("Error during VPN check: " ++ errorText))
      ("Exception: " ++ errorText)

/-- The confidence label the threshold ladder (lines 196-207) associates to
a final score; scores below 15 keep the initial label "Low" of line 66. -/
def tierOf (s : Int) : String :=
  if 70 ≤ s then "Very High"
  else if 50 ≤ s then "High"
  else if 30 ≤ s then "Medium"
  else "Low"

/-- Ordinal rank of a confidence label, for stating monotonicity. -/
def confRank (c : String) : Nat :=
  if c = "Very High" then 4
  else if c = "High" then 3
  else if c = "Medium" then 2
  else if c = "Low" then 1
  else 0

/-- The labels `check_vpn_status` can actually return. -/
def validConfidences : List String := ["Low", "Medium", "High", "Very High"]

/-- Two assessments agree on everything except the debug trail. -/
def coreEq (a b : VpnIndicators) : Prop :=
  a.is_vpn = b.is_vpn ∧ a.confidence = b.confidence ∧
  a.indicators = b.indicators ∧ a.risk_score = b.risk_score

/-- A positive score is explained by at least one indicator. -/
def goodInd (st : VpnIndicators) : Prop :=
  0 < st.risk_score → st.indicators ≠ []

/-- Relation between the accumulator before and after a scoring step that
happens before the threshold ladder: the flag and label are untouched, the
score never decreases, the indicator and debug lists only grow, and a
positive score stays explained. -/
def AdvOk (a b : VpnIndicators) : Prop :=
  b.is_vpn = a.is_vpn ∧ b.confidence = a.confidence ∧
  a.risk_score ≤ b.risk_score ∧
  (∀ e, e ∈ a.indicators → e ∈ b.indicators) ∧
  (∀ e, e ∈ a.debug_info → e ∈ b.debug_info) ∧
  (goodInd a → goodInd b)

/-- Invariant of the hosting-keyword fold relative to its start state. -/
def HostInv (st0 : VpnIndicators) (q : Int × VpnIndicators) : Prop :=
  0 ≤ q.1 ∧ AdvOk st0 q.2 ∧ (0 < q.1 → q.2.indicators ≠ [])

/-- A geo record triggering no keyword, country or proxy signal
(claim C6's "other fields benign"). -/
def matchesNoKeyword (g : GeoRecord) : Prop :=
  (vpn_keywords.any (fun k =>
      strContains (strLower g.isp) k || strContains (strLower g.org) k ||
      strContains (strLower g.as_info) k)) = false ∧
  (datacenter_keywords.any (fun k =>
      strContains (strLower g.isp) k || strContains (strLower g.org) k ||
      strContains (strLower g.as_info) k)) = false ∧
  (vpn_friendly_countries.any (fun c => strContains (strLower g.country) c)) = false

instance (g : GeoRecord) : Decidable (matchesNoKeyword g) := by
  unfold matchesNoKeyword
  exact inferInstance

/-- The test record of claim C7. -/
def nordGeo : GeoRecord :=
  { isp := "NordVPN Services", org := "", as_info := "", country := "Netherlands",
    proxy := false }

/-- A record whose ISP alone carries a VPN brand (used for claim C5). -/
def nordMini : GeoRecord :=
  { isp := "nordvpn", org := "", as_info := "", country := "", proxy := false }

/-- A record with every field empty. -/
def emptyGeo : GeoRecord :=
  { isp := "", org := "", as_info := "", country := "", proxy := false }

/-- A record whose only signal is the provider proxy flag. -/
def proxyGeo : GeoRecord :=
  { isp := "", org := "", as_info := "", country := "", proxy := true }

/-- The state of the scorer on `nordGeo` after the datacenter-ISP signal:
the ip- and api-independent front of the pipeline, closed so it can be
evaluated. -/
def nordMid : VpnIndicators :=
  dcStage (strLower nordGeo.isp) nordGeo.isp
    (proxyStage nordGeo.proxy
      (hostingStage (strLower nordGeo.isp) (strLower nordGeo.org)
          (strLower nordGeo.as_info) nordGeo.isp nordGeo.org nordGeo.as_info
        (kwStage (strLower nordGeo.isp) (strLower nordGeo.org)
            (strLower nordGeo.as_info) nordGeo.isp nordGeo.org nordGeo.as_info
          (dbgStage (strLower nordGeo.isp) (strLower nordGeo.org)
            (strLower nordGeo.as_info) initIndicators))))

/-- Outcome of a reverse-DNS lookup, supplied as an oracle. -/
inductive RdnsOutcome where
  | fail (msg : String)
  | host (hostname : String)

/-- Modelled from the spec: the hosting/VPN keywords of the reverse-DNS
signal of the consolidated RiskScorer; this signal is absent from
`src/iptrack.py`'s `check_vpn_status`. -/
def rdns_keywords : List String := ["vpn", "cloud", "vps", "host", "server"]

/-- Modelled from the spec: the reverse-DNS scoring signal of the
consolidated RiskScorer (absent from the code under `src/`): a hostname
containing a hosting/VPN keyword adds +20 with an indicator; a raised or
timed-out lookup is non-fatal and is logged to the debug trail. -/
def rdnsStep (rd : RdnsOutcome) (st : VpnIndicators) : VpnIndicators :=
  match rd with
  | .fail m => appendDbg st ("Reverse DNS lookup failed: " ++ m)
  | .host h =>
    if (rdns_keywords.any (fun k => strContains (strLower h) k)) = true then
      addInd st ("Hosting/VPN keyword in reverse DNS hostname: " ++ h) 20
    else st

/-- Modelled from the spec: `assess` of the consolidated RiskScorer — the
signals of `check_vpn_status` extended with the reverse-DNS signal the
spec describes, placed with the other auxiliary-lookup signals before the
clamp. -/
def assess_with_rdns (ip : String) (geo : Option GeoRecord) (api : ApiOutcome)
    (rd : RdnsOutcome) : VpnIndicators :=
  match geo with
  | some g => postClamp (strLower g.isp) g.isp (rdnsStep rd (preClamp ip g api))
  | none => check_vpn_status ip none api

/-! ### Basic facts about the accumulator helpers -/

@[simp] lemma addInd_is_vpn (st : VpnIndicators) (s : String) (w : Int) :
    (addInd st s w).is_vpn = st.is_vpn := rfl

@[simp] lemma addInd_confidence (st : VpnIndicators) (s : String) (w : Int) :
    (addInd st s w).confidence = st.confidence := rfl

@[simp] lemma addInd_indicators (st : VpnIndicators) (s : String) (w : Int) :
    (addInd st s w).indicators = st.indicators ++ [s] := rfl

@[simp] lemma addInd_risk (st : VpnIndicators) (s : String) (w : Int) :
    (addInd st s w).risk_score = st.risk_score + w := rfl

@[simp] lemma addInd_debug (st : VpnIndicators) (s : String) (w : Int) :
    (addInd st s w).debug_info = st.debug_info := rfl

@[simp] lemma appendInd_is_vpn (st : VpnIndicators) (s : String) :
    (appendInd st s).is_vpn = st.is_vpn := rfl

@[simp] lemma appendInd_confidence (st : VpnIndicators) (s : String) :
    (appendInd st s).confidence = st.confidence := rfl

@[simp] lemma appendInd_indicators (st : VpnIndicators) (s : String) :
    (appendInd st s).indicators = st.indicators ++ [s] := rfl

@[simp] lemma appendInd_risk (st : VpnIndicators) (s : String) :
    (appendInd st s).risk_score = st.risk_score := rfl

@[simp] lemma appendInd_debug (st : VpnIndicators) (s : String) :
    (appendInd st s).debug_info = st.debug_info := rfl

@[simp] lemma appendDbg_is_vpn (st : VpnIndicators) (s : String) :
    (appendDbg st s).is_vpn = st.is_vpn := rfl

@[simp] lemma appendDbg_confidence (st : VpnIndicators) (s : String) :
    (appendDbg st s).confidence = st.confidence := rfl

@[simp] lemma appendDbg_indicators (st : VpnIndicators) (s : String) :
    (appendDbg st s).indicators = st.indicators := rfl

@[simp] lemma appendDbg_risk (st : VpnIndicators) (s : String) :
    (appendDbg st s).risk_score = st.risk_score := rfl

@[simp] lemma appendDbg_debug (st : VpnIndicators) (s : String) :
    (appendDbg st s).debug_info = st.debug_info ++ [s] := rfl

/-! ### The step relation and its closure properties -/

lemma advOk_refl (a : VpnIndicators) : AdvOk a a :=
  ⟨rfl, rfl, le_refl _, fun _ h => h, fun _ h => h, fun h => h⟩

lemma advOk_trans {a b c : VpnIndicators} (h1 : AdvOk a b) (h2 : AdvOk b c) :
    AdvOk a c := by
  obtain ⟨x1, x2, x3, x4, x5, x6⟩ := h1
  obtain ⟨y1, y2, y3, y4, y5, y6⟩ := h2
  exact ⟨y1.trans x1, y2.trans x2, x3.trans y3, fun e he => y4 e (x4 e he),
    fun e he => y5 e (x5 e he), fun h => y6 (x6 h)⟩

lemma advOk_addInd (st : VpnIndicators) (s : String) {w : Int} (hw : 0 ≤ w) :
    AdvOk st (addInd st s w) := by
  refine ⟨rfl, rfl, by simp; omega, fun e he => by simp [he], fun e he => he, ?_⟩
  intro _ _
  simp

lemma advOk_appendInd (st : VpnIndicators) (s : String) :
    AdvOk st (appendInd st s) := by
  refine ⟨rfl, rfl, le_refl _, fun e he => by simp [he], fun e he => he, ?_⟩
  intro _ _
  simp

lemma advOk_appendDbg (st : VpnIndicators) (s : String) :
    AdvOk st (appendDbg st s) := by
  refine ⟨rfl, rfl, le_refl _, fun e he => he, fun e he => by simp [he], ?_⟩
  intro h hr
  exact h hr

lemma advOk_ite_addInd (st : VpnIndicators) (c : Prop) [Decidable c] (s : String)
    {w : Int} (hw : 0 ≤ w) : AdvOk st (if c then addInd st s w else st) := by
  split
  · exact advOk_addInd st s hw
  · exact advOk_refl st

lemma advOk_foldl {α : Type} (f : VpnIndicators → α → VpnIndicators)
    (h : ∀ st k, AdvOk st (f st k)) (l : List α) :
    ∀ st, AdvOk st (l.foldl f st) := by
  induction l with
  | nil => intro st; exact advOk_refl st
  | cons k ks ih => intro st; exact advOk_trans (h st k) (ih (f st k))

/-! ### Each scoring stage advances the accumulator -/

lemma dbgStage_adv (isp org as_info : String) (st : VpnIndicators) :
    AdvOk st (dbgStage isp org as_info st) := by
  refine ⟨rfl, rfl, le_refl _, fun e he => he, fun e he => ?_, fun h => h⟩
  simp [dbgStage]
  exact Or.inl he

lemma kwStep_adv (isp org as_info rI rO rA : String) (st : VpnIndicators)
    (k : String) : AdvOk st (kwStep isp org as_info rI rO rA st k) := by
  unfold kwStep
  exact advOk_trans
    (advOk_trans (advOk_ite_addInd _ _ _ (by norm_num))
      (advOk_ite_addInd _ _ _ (by norm_num)))
    (advOk_ite_addInd _ _ _ (by norm_num))

lemma kwStage_adv (isp org as_info rI rO rA : String) (st : VpnIndicators) :
    AdvOk st (kwStage isp org as_info rI rO rA st) :=
  advOk_foldl _ (kwStep_adv isp org as_info rI rO rA) vpn_keywords st

lemma hostInv_ite (st0 : VpnIndicators) (q : Int × VpnIndicators) (c : Prop)
    [Decidable c] {d : Int} (hd : 0 ≤ d) (s : String) (h : HostInv st0 q) :
    HostInv st0 (if c then (q.1 + d, appendInd q.2 s) else q) := by
  split
  · obtain ⟨h1, h2, _⟩ := h
    refine ⟨by omega, advOk_trans h2 (advOk_appendInd _ _), ?_⟩
    intro _
    simp
  · exact h

lemma hostStep_inv (isp org as_info rI rO rA : String) (st0 : VpnIndicators)
    (q : Int × VpnIndicators) (k : String) (h : HostInv st0 q) :
    HostInv st0 (hostStep isp org as_info rI rO rA q k) := by
  unfold hostStep
  exact hostInv_ite _ _ _ (by norm_num) _
    (hostInv_ite _ _ _ (by norm_num) _
      (hostInv_ite _ _ _ (by norm_num) _ h))

lemma hostInv_foldl (isp org as_info rI rO rA : String) (st0 : VpnIndicators)
    (l : List String) : ∀ q, HostInv st0 q →
    HostInv st0 (l.foldl (hostStep isp org as_info rI rO rA) q) := by
  induction l with
  | nil => intro q h; exact h
  | cons k ks ih =>
    intro q h
    exact ih _ (hostStep_inv isp org as_info rI rO rA st0 q k h)

lemma hostingAdd_adv (st0 : VpnIndicators) (q : Int × VpnIndicators)
    (h : HostInv st0 q) : AdvOk st0 (hostingAdd q) := by
  obtain ⟨h1, ⟨e1, e2, e3, e4, e5, e6⟩, h3⟩ := h
  unfold hostingAdd
  split
  · rename_i hpos
    have hmin : (0 : Int) ≤ min q.1 30 := le_min h1 (by norm_num)
    refine ⟨e1, e2, by simp; omega, e4, e5, ?_⟩
    intro _ _
    simpa using h3 hpos
  · exact ⟨e1, e2, e3, e4, e5, e6⟩

lemma hostingStage_adv (isp org as_info rI rO rA : String) (st : VpnIndicators) :
    AdvOk st (hostingStage isp org as_info rI rO rA st) := by
  unfold hostingStage
  have h0 : HostInv st (0, st) := by
    refine ⟨le_refl 0, advOk_refl st, ?_⟩
    intro h
    omega
  exact hostingAdd_adv st _
    (hostInv_foldl isp org as_info rI rO rA st datacenter_keywords (0, st) h0)

lemma proxyStage_adv (p : Bool) (st : VpnIndicators) :
    AdvOk st (proxyStage p st) := by
  unfold proxyStage
  exact advOk_ite_addInd _ _ _ (by norm_num)

lemma dcStage_adv (isp rI : String) (st : VpnIndicators) :
    AdvOk st (dcStage isp rI st) := by
  unfold dcStage
  exact advOk_ite_addInd _ _ _ (by norm_num)

lemma apiStage_adv (api : ApiOutcome) (st : VpnIndicators) :
    AdvOk st (apiStage api st) := by
  cases api with
  | fail m => exact advOk_appendDbg st _
  | noData => exact advOk_refl st
  | flags v p t =>
    unfold apiStage
    exact advOk_trans
      (advOk_trans (advOk_ite_addInd _ _ _ (by norm_num))
        (advOk_ite_addInd _ _ _ (by norm_num)))
      (advOk_ite_addInd _ _ _ (by norm_num))

lemma patternCore_adv (o : Option Int) (st : VpnIndicators) :
    AdvOk st (patternCore o st) := by
  cases o with
  | some n =>
    unfold patternCore
    exact advOk_ite_addInd _ _ _ (by norm_num)
  | none => exact advOk_appendDbg st _

lemma patternStage_adv (ip : String) (st : VpnIndicators) :
    AdvOk st (patternStage ip st) := by
  unfold patternStage
  split
  · exact patternCore_adv _ st
  · exact advOk_refl st

lemma countryStage_adv (country isp : String) (st : VpnIndicators) :
    AdvOk st (countryStage country isp st) := by
  unfold countryStage
  exact advOk_ite_addInd _ _ _ (by norm_num)

lemma rdnsStep_adv (rd : RdnsOutcome) (st : VpnIndicators) :
    AdvOk st (rdnsStep rd st) := by
  cases rd with
  | fail m => exact advOk_appendDbg st _
  | host h =>
    unfold rdnsStep
    exact advOk_ite_addInd _ _ _ (by norm_num)

/-! ### The pre-clamp pipeline -/

lemma preClamp_adv (ip : String) (g : GeoRecord) (api : ApiOutcome) :
    AdvOk (dbgStage (strLower g.isp) (strLower g.org) (strLower g.as_info)
        initIndicators)
      (preClamp ip g api) := by
  unfold preClamp
  exact advOk_trans
    (advOk_trans
      (advOk_trans
        (advOk_trans
          (advOk_trans
            (advOk_trans (kwStage_adv _ _ _ _ _ _ _) (hostingStage_adv _ _ _ _ _ _ _))
            (proxyStage_adv _ _))
          (dcStage_adv _ _ _))
        (apiStage_adv _ _))
      (patternStage_adv _ _))
    (countryStage_adv _ _ _)

lemma dbg0_fields (isp org as_info : String) :
    (dbgStage isp org as_info initIndicators).is_vpn = false ∧
    (dbgStage isp org as_info initIndicators).confidence = "Low" ∧
    (dbgStage isp org as_info initIndicators).risk_score = 0 ∧
    (dbgStage isp org as_info initIndicators).indicators = [] ∧
    (dbgStage isp org as_info initIndicators).debug_info =
      ["ISP: " ++ isp, "Organization: " ++ org, "AS: " ++ as_info] := by
  simp [dbgStage, initIndicators]

lemma preClamp_is_vpn (ip : String) (g : GeoRecord) (api : ApiOutcome) :
    (preClamp ip g api).is_vpn = false := by
  have h := (preClamp_adv ip g api).1
  rw [h, (dbg0_fields _ _ _).1]

lemma preClamp_confidence (ip : String) (g : GeoRecord) (api : ApiOutcome) :
    (preClamp ip g api).confidence = "Low" := by
  have h := (preClamp_adv ip g api).2.1
  rw [h, (dbg0_fields _ _ _).2.1]

lemma preClamp_risk_nonneg (ip : String) (g : GeoRecord) (api : ApiOutcome) :
    0 ≤ (preClamp ip g api).risk_score := by
  have h := (preClamp_adv ip g api).2.2.1
  have h0 := (dbg0_fields (strLower g.isp) (strLower g.org) (strLower g.as_info)).2.2.1
  omega

lemma preClamp_goodInd (ip : String) (g : GeoRecord) (api : ApiOutcome) :
    goodInd (preClamp ip g api) := by
  apply (preClamp_adv ip g api).2.2.2.2.2
  intro h
  rw [(dbg0_fields (strLower g.isp) (strLower g.org) (strLower g.as_info)).2.2.1] at h
  omega

lemma preClamp_debug_mem (ip : String) (g : GeoRecord) (api : ApiOutcome) :
    ("ISP: " ++ strLower g.isp) ∈ (preClamp ip g api).debug_info ∧
    ("Organization: " ++ strLower g.org) ∈ (preClamp ip g api).debug_info ∧
    ("AS: " ++ strLower g.as_info) ∈ (preClamp ip g api).debug_info := by
  have h := (preClamp_adv ip g api).2.2.2.2.1
  have h0 := (dbg0_fields (strLower g.isp) (strLower g.org) (strLower g.as_info)).2.2.2.2
  refine ⟨h _ ?_, h _ ?_, h _ ?_⟩ <;> rw [h0] <;> simp

/-! ### Clamp, thresholds and fallback -/

lemma tierOf_low {r : Int} (h : r < 30) : tierOf r = "Low" := by
  unfold tierOf
  split_ifs <;> first | rfl | omega

lemma tierOf_mem (r : Int) : tierOf r ∈ validConfidences := by
  unfold tierOf validConfidences
  split_ifs <;> simp

lemma confRank_mono (a b : Int) (h : a ≤ b) :
    confRank (tierOf a) ≤ confRank (tierOf b) := by
  unfold tierOf
  split_ifs <;> first | omega | simp [confRank]

lemma clampStage_fields (st : VpnIndicators) :
    (clampStage st).is_vpn = st.is_vpn ∧
    (clampStage st).confidence = st.confidence ∧
    (clampStage st).indicators = st.indicators ∧
    (clampStage st).debug_info = st.debug_info ∧
    (clampStage st).risk_score = min st.risk_score 100 := by
  simp [clampStage]

lemma threshStage_fields (st : VpnIndicators) :
    (threshStage st).indicators = st.indicators ∧
    (threshStage st).debug_info = st.debug_info ∧
    (threshStage st).risk_score = st.risk_score := by
  unfold threshStage
  split_ifs <;> simp

lemma threshStage_char (st : VpnIndicators) (h1 : st.is_vpn = false)
    (h2 : st.confidence = "Low") :
    (threshStage st).confidence = tierOf st.risk_score ∧
    ((threshStage st).is_vpn = true ↔ 15 ≤ st.risk_score) := by
  unfold threshStage tierOf
  split_ifs <;> simp_all <;> omega

lemma fallbackStage_char (isp rI : String) (st : VpnIndicators)
    (hconf : st.confidence = tierOf st.risk_score)
    (hvpn : st.is_vpn = true ↔ 15 ≤ st.risk_score)
    (h0 : 0 ≤ st.risk_score) (h100 : st.risk_score ≤ 100) :
    (fallbackStage isp rI st).confidence =
      tierOf (fallbackStage isp rI st).risk_score ∧
    ((fallbackStage isp rI st).is_vpn = true ↔
      15 ≤ (fallbackStage isp rI st).risk_score) ∧
    0 ≤ (fallbackStage isp rI st).risk_score ∧
    (fallbackStage isp rI st).risk_score ≤ 100 := by
  unfold fallbackStage
  split_ifs with hcond
  · obtain ⟨hnt, hne, hlt⟩ := hcond
    have hvf : st.is_vpn = false := by
      cases hb : st.is_vpn with
      | false => rfl
      | true => exact absurd (hvpn.mp hb) (by omega)
    have hcl : st.confidence = "Low" := by rw [hconf, tierOf_low (by omega)]
    unfold fallbackTail
    split_ifs with h15
    · simp only [addInd_risk] at h15
      refine ⟨?_, ?_, ?_, ?_⟩
      · show "Low" = tierOf (st.risk_score + 10)
        rw [tierOf_low (by omega)]
      · show (true : Bool) = true ↔ 15 ≤ st.risk_score + 10
        exact ⟨fun _ => by omega, fun _ => rfl⟩
      · show (0 : Int) ≤ st.risk_score + 10
        omega
      · show st.risk_score + 10 ≤ 100
        omega
    · simp only [addInd_risk] at h15
      refine ⟨?_, ?_, ?_, ?_⟩
      · show st.confidence = tierOf (st.risk_score + 10)
        rw [hcl, tierOf_low (by omega)]
      · show st.is_vpn = true ↔ 15 ≤ st.risk_score + 10
        rw [hvf]
        constructor
        · intro hx
          exact absurd hx (by simp)
        · intro hx
          omega
      · show (0 : Int) ≤ st.risk_score + 10
        omega
      · show st.risk_score + 10 ≤ 100
        omega
  · exact ⟨hconf, hvpn, h0, h100⟩

lemma postClamp_char (isp rI : String) (st : VpnIndicators)
    (h1 : st.is_vpn = false) (h2 : st.confidence = "Low")
    (h3 : 0 ≤ st.risk_score) :
    (postClamp isp rI st).confidence = tierOf (postClamp isp rI st).risk_score ∧
    ((postClamp isp rI st).is_vpn = true ↔ 15 ≤ (postClamp isp rI st).risk_score) ∧
    0 ≤ (postClamp isp rI st).risk_score ∧
    (postClamp isp rI st).risk_score ≤ 100 := by
  unfold postClamp
  obtain ⟨c1, c2, c3, c4, c5⟩ := clampStage_fields st
  obtain ⟨t1, t2, t3⟩ := threshStage_fields (clampStage st)
  have hch := threshStage_char (clampStage st) (by rw [c1, h1]) (by rw [c2, h2])
  have hmin0 : 0 ≤ min st.risk_score 100 := le_min h3 (by norm_num)
  have hmin100 : min st.risk_score 100 ≤ 100 := min_le_right _ _
  exact fallbackStage_char isp rI (threshStage (clampStage st))
    (by rw [hch.1, t3, c5]) (by rw [t3, c5]; exact hch.2)
    (by rw [t3, c5]; exact hmin0) (by rw [t3, c5]; exact hmin100)

lemma clampStage_good (st : VpnIndicators) (h : goodInd st) :
    goodInd (clampStage st) := by
  intro hr
  have : 0 < st.risk_score :=
    lt_of_lt_of_le hr ((clampStage_fields st).2.2.2.2 ▸ min_le_left _ _)
  exact (clampStage_fields st).2.2.1 ▸ h this

lemma threshStage_good (st : VpnIndicators) (h : goodInd st) :
    goodInd (threshStage st) := by
  intro hr
  rw [(threshStage_fields st).2.2] at hr
  exact (threshStage_fields st).1 ▸ h hr

lemma fallbackStage_fields (isp rI : String) (st : VpnIndicators) :
    (∀ e, e ∈ st.indicators → e ∈ (fallbackStage isp rI st).indicators) ∧
    (fallbackStage isp rI st).debug_info = st.debug_info ∧
    st.risk_score ≤ (fallbackStage isp rI st).risk_score ∧
    (goodInd st → goodInd (fallbackStage isp rI st)) := by
  unfold fallbackStage fallbackTail
  split_ifs
  · refine ⟨fun e he => by simp [he], rfl, by simp, ?_⟩
    intro _ _
    simp
  · refine ⟨fun e he => by simp [he], rfl, by simp, ?_⟩
    intro _ _
    simp
  · exact ⟨fun e he => he, rfl, le_refl _, fun h => h⟩

lemma postClamp_adv (isp rI : String) (st : VpnIndicators) :
    (∀ e, e ∈ st.indicators → e ∈ (postClamp isp rI st).indicators) ∧
    (∀ e, e ∈ st.debug_info → e ∈ (postClamp isp rI st).debug_info) ∧
    (goodInd st → goodInd (postClamp isp rI st)) ∧
    min st.risk_score 100 ≤ (postClamp isp rI st).risk_score := by
  unfold postClamp
  obtain ⟨c1, c2, c3, c4, c5⟩ := clampStage_fields st
  obtain ⟨t1, t2, t3⟩ := threshStage_fields (clampStage st)
  obtain ⟨f1, f2, f3, f4⟩ := fallbackStage_fields isp rI (threshStage (clampStage st))
  refine ⟨?_, ?_, ?_, ?_⟩
  · intro e he
    exact f1 e (t1 ▸ c3 ▸ he)
  · intro e he
    rw [f2, t2, c4]
    exact he
  · intro h
    exact f4 (threshStage_good _ (clampStage_good _ h))
  · rw [t3, c5] at f3
    omega

/-! ### Core equality (everything except the debug trail) -/

lemma coreEq_addInd {a b : VpnIndicators} (h : coreEq a b) (s : String) (w : Int) :
    coreEq (addInd a s w) (addInd b s w) := by
  obtain ⟨h1, h2, h3, h4⟩ := h
  exact ⟨h1, h2, by simp [h3], by simp [h4]⟩

lemma coreEq_appendDbg (a : VpnIndicators) (s : String) :
    coreEq (appendDbg a s) a :=
  ⟨rfl, rfl, rfl, rfl⟩

lemma patternCore_congr (o : Option Int) {a b : VpnIndicators} (h : coreEq a b) :
    coreEq (patternCore o a) (patternCore o b) := by
  cases o with
  | some n =>
    simp only [patternCore]
    split_ifs
    · exact coreEq_addInd h _ _
    · exact h
  | none => exact ⟨h.1, h.2.1, h.2.2.1, h.2.2.2⟩

lemma patternStage_congr (ip : String) {a b : VpnIndicators} (h : coreEq a b) :
    coreEq (patternStage ip a) (patternStage ip b) := by
  unfold patternStage
  split_ifs
  · exact patternCore_congr _ h
  · exact h

lemma countryStage_congr (country isp : String) {a b : VpnIndicators}
    (h : coreEq a b) : coreEq (countryStage country isp a) (countryStage country isp b) := by
  unfold countryStage
  split_ifs
  · exact coreEq_addInd h _ _
  · exact h

lemma clampStage_congr {a b : VpnIndicators} (h : coreEq a b) :
    coreEq (clampStage a) (clampStage b) := by
  obtain ⟨h1, h2, h3, h4⟩ := h
  refine ⟨h1, h2, h3, ?_⟩
  show min a.risk_score 100 = min b.risk_score 100
  rw [h4]

lemma threshStage_congr {a b : VpnIndicators} (h : coreEq a b) :
    coreEq (threshStage a) (threshStage b) := by
  obtain ⟨h1, h2, h3, h4⟩ := h
  unfold threshStage
  rw [h4]
  split_ifs <;> first | exact ⟨rfl, rfl, h3, rfl⟩ | exact ⟨h1, h2, h3, h4⟩

lemma fallbackTail_congr {a b : VpnIndicators} (h : coreEq a b) :
    coreEq (fallbackTail a) (fallbackTail b) := by
  obtain ⟨h1, h2, h3, h4⟩ := h
  unfold fallbackTail
  rw [h4]
  split_ifs <;> first | exact ⟨rfl, rfl, h3, rfl⟩ | exact ⟨h1, h2, h3, h4⟩

lemma fallbackStage_congr (isp rI : String) {a b : VpnIndicators}
    (h : coreEq a b) : coreEq (fallbackStage isp rI a) (fallbackStage isp rI b) := by
  obtain ⟨h1, h2, h3, h4⟩ := h
  unfold fallbackStage
  rw [h4]
  split_ifs
  · exact fallbackTail_congr (coreEq_addInd ⟨h1, h2, h3, h4⟩ _ _)
  · exact ⟨h1, h2, h3, h4⟩

lemma postClamp_congr (isp rI : String) {a b : VpnIndicators} (h : coreEq a b) :
    coreEq (postClamp isp rI a) (postClamp isp rI b) :=
  fallbackStage_congr isp rI (threshStage_congr (clampStage_congr h))

/-! ### Assembled facts about the entry point -/

lemma check_some_char (ip : String) (g : GeoRecord) (api : ApiOutcome) :
    (check_vpn_status ip (some g) api).confidence =
      tierOf (check_vpn_status ip (some g) api).risk_score ∧
    ((check_vpn_status ip (some g) api).is_vpn = true ↔
      15 ≤ (check_vpn_status ip (some g) api).risk_score) ∧
    0 ≤ (check_vpn_status ip (some g) api).risk_score ∧
    (check_vpn_status ip (some g) api).risk_score ≤ 100 :=
  postClamp_char (strLower g.isp) g.isp (preClamp ip g api)
    (preClamp_is_vpn ip g api) (preClamp_confidence ip g api)
    (preClamp_risk_nonneg ip g api)

lemma check_none_fields (ip : String) (api : ApiOutcome) :
    (check_vpn_status ip none api).is_vpn = false ∧
    (check_vpn_status ip none api).confidence = "Low" ∧
    (check_vpn_status ip none api).risk_score = 0 ∧
    (check_vpn_status ip none api).indicators =
      ["Error during VPN check: " ++ errorText] ∧
    (check_vpn_status ip none api).debug_info =
      ["Exception: " ++ errorText] := by
  simp [check_vpn_status, appendDbg, appendInd, initIndicators]

/-! ### Helper bounds for score lower-bound claims -/

lemma check_risk_lower (ip : String) (g : GeoRecord) (api : ApiOutcome) {c : Int}
    (h : c ≤ (preClamp ip g api).risk_score) (hc2 : c ≤ 100) :
    c ≤ (check_vpn_status ip (some g) api).risk_score := by
  have hpost := (postClamp_adv (strLower g.isp) g.isp (preClamp ip g api)).2.2.2
  have hmin : c ≤ min (preClamp ip g api).risk_score 100 := le_min h hc2
  show c ≤ (postClamp (strLower g.isp) g.isp (preClamp ip g api)).risk_score
  omega

lemma proxy_tail_lower (ip country isp rI : String) (api : ApiOutcome)
    (st : VpnIndicators) (h0 : 0 ≤ st.risk_score) :
    40 ≤ (countryStage country isp
      (patternStage ip (apiStage api (dcStage isp rI (proxyStage true st))))).risk_score := by
  have hP : (proxyStage true st).risk_score = st.risk_score + 40 := by
    simp [proxyStage]
  have a1 := (dcStage_adv isp rI (proxyStage true st)).2.2.1
  have a2 := (apiStage_adv api (dcStage isp rI (proxyStage true st))).2.2.1
  have a3 := (patternStage_adv ip
    (apiStage api (dcStage isp rI (proxyStage true st)))).2.2.1
  have a4 := (countryStage_adv country isp
    (patternStage ip (apiStage api (dcStage isp rI (proxyStage true st))))).2.2.1
  omega

lemma preClamp_risk_proxy (ip : String) (g : GeoRecord) (api : ApiOutcome)
    (hp : g.proxy = true) : 40 ≤ (preClamp ip g api).risk_score := by
  unfold preClamp
  rw [hp]
  apply proxy_tail_lower
  have adv : AdvOk
      (dbgStage (strLower g.isp) (strLower g.org) (strLower g.as_info) initIndicators)
      (hostingStage (strLower g.isp) (strLower g.org) (strLower g.as_info)
        g.isp g.org g.as_info
        (kwStage (strLower g.isp) (strLower g.org) (strLower g.as_info)
          g.isp g.org g.as_info
          (dbgStage (strLower g.isp) (strLower g.org) (strLower g.as_info)
            initIndicators))) :=
    advOk_trans (kwStage_adv _ _ _ _ _ _ _) (hostingStage_adv _ _ _ _ _ _ _)
  have hz := (dbg0_fields (strLower g.isp) (strLower g.org) (strLower g.as_info)).2.2.1
  have := adv.2.2.1
  omega

/-! ### The claims -/

/-- Claim C1: for every ip string, every geo record (present or missing)
and every auxiliary-api outcome, the risk_score of the assessment returned
by check_vpn_status satisfies 0 <= risk_score <= 100, including on the
path where the internal exception is caught and the partially-accumulated
assessment is returned (there the accumulated score is still 0). -/
theorem c1_risk_score_bounds (ip : String) (geo : Option GeoRecord)
    (api : ApiOutcome) :
    0 ≤ (check_vpn_status ip geo api).risk_score ∧
    (check_vpn_status ip geo api).risk_score ≤ 100 := by
  cases geo with
  | none =>
    constructor
    · rw [(check_none_fields ip api).2.2.1]
    · rw [(check_none_fields ip api).2.2.1]
      norm_num
  | some g =>
    exact ⟨(check_some_char ip g api).2.2.1, (check_some_char ip g api).2.2.2⟩

/-- Claim C2: for every input the returned assessment has is_vpn = true
exactly when its final risk_score is at least 15, including the
caught-exception path (where the score is 0 and the flag stays false). -/
theorem c2_is_vpn_iff_threshold (ip : String) (geo : Option GeoRecord)
    (api : ApiOutcome) :
    (check_vpn_status ip geo api).is_vpn = true ↔
      15 ≤ (check_vpn_status ip geo api).risk_score := by
  cases geo with
  | none =>
    obtain ⟨h1, _, h3, _, _⟩ := check_none_fields ip api
    rw [h1, h3]
    simp
  | some g => exact (check_some_char ip g api).2.1

/-- Claim C3, counterexample: on a benign record with an empty ISP the
final score is below 15 and is_vpn is false, but the confidence label is
the initial "Low", not "None" as the claim states. -/
theorem c3_counterexample :
    (check_vpn_status "8.8.8.8" (some emptyGeo) ApiOutcome.noData).risk_score < 15 ∧
    (check_vpn_status "8.8.8.8" (some emptyGeo) ApiOutcome.noData).is_vpn = false ∧
    (check_vpn_status "8.8.8.8" (some emptyGeo) ApiOutcome.noData).confidence ≠ "None" ∧
    (check_vpn_status "8.8.8.8" (some emptyGeo) ApiOutcome.noData).confidence = "Low" := by
  decide

/-- Claim C3 as amended: the confidence of the returned assessment is the
monotone step function tierOf of the final risk_score — below 30 the label
is "Low" (scores below 15 simply keep the initial label, with
is_vpn = false), 30-49 "Medium", 50-69 "High", at least 70 "Very High" —
is_vpn = true exactly at scores of at least 15, and the tier rank is a
non-decreasing function of the score. -/
theorem c3_confidence_tiers (ip : String) (geo : Option GeoRecord)
    (api : ApiOutcome) :
    (check_vpn_status ip geo api).confidence =
      tierOf (check_vpn_status ip geo api).risk_score ∧
    ((check_vpn_status ip geo api).is_vpn = true ↔
      15 ≤ (check_vpn_status ip geo api).risk_score) ∧
    (∀ a b : Int, a ≤ b → confRank (tierOf a) ≤ confRank (tierOf b)) := by
  cases geo with
  | none =>
    obtain ⟨h1, h2, h3, _, _⟩ := check_none_fields ip api
    refine ⟨?_, ?_, fun a b h => confRank_mono a b h⟩
    · rw [h2, h3]
      decide
    · rw [h1, h3]
      simp
  | some g =>
    exact ⟨(check_some_char ip g api).1, (check_some_char ip g api).2.1,
      fun a b h => confRank_mono a b h⟩

/-- Witness for the amended claim C3 at a concrete input. -/
theorem c3_confidence_tiers_witness :
    (check_vpn_status "8.8.8.8" (some emptyGeo) ApiOutcome.noData).confidence =
      tierOf (check_vpn_status "8.8.8.8" (some emptyGeo) ApiOutcome.noData).risk_score ∧
    confRank (tierOf 10) ≤ confRank (tierOf 40) :=
  ⟨(c3_confidence_tiers "8.8.8.8" (some emptyGeo) ApiOutcome.noData).1,
   (c3_confidence_tiers "8.8.8.8" (some emptyGeo) ApiOutcome.noData).2.2 10 40
     (by norm_num)⟩

/-- Claim C4: check_vpn_status is total — for every input, including a
missing geo record, it returns a complete assessment whose confidence is
one of the four labels it can produce — and an auxiliary-api failure is
appended to debug_info while scoring continues with the remaining signals:
the result with a failed api call agrees with the result of a silent api
call on everything except the debug trail. -/
theorem c4_total_fault_tolerant (ip : String) (geo : Option GeoRecord)
    (g : GeoRecord) (api : ApiOutcome) (m : String) :
    (check_vpn_status ip geo api).confidence ∈ validConfidences ∧
    coreEq (check_vpn_status ip (some g) (ApiOutcome.fail m))
      (check_vpn_status ip (some g) ApiOutcome.noData) ∧
    ("VPNAPI.io check failed: " ++ m) ∈
      (check_vpn_status ip (some g) (ApiOutcome.fail m)).debug_info := by
  refine ⟨?_, ?_, ?_⟩
  · cases geo with
    | none =>
      rw [(check_none_fields ip api).2.1]
      decide
    | some g' =>
      rw [(check_some_char ip g' api).1]
      exact tierOf_mem _
  · show coreEq
      (postClamp (strLower g.isp) g.isp (preClamp ip g (ApiOutcome.fail m)))
      (postClamp (strLower g.isp) g.isp (preClamp ip g ApiOutcome.noData))
    apply postClamp_congr
    unfold preClamp
    apply countryStage_congr
    apply patternStage_congr
    exact coreEq_appendDbg _ _
  · show ("VPNAPI.io check failed: " ++ m) ∈
      (postClamp (strLower g.isp) g.isp (preClamp ip g (ApiOutcome.fail m))).debug_info
    apply (postClamp_adv _ _ _).2.1
    unfold preClamp
    apply (countryStage_adv _ _ _).2.2.2.2.1
    apply (patternStage_adv _ _).2.2.2.2.1
    show ("VPNAPI.io check failed: " ++ m) ∈ (appendDbg _ _).debug_info
    simp

/-- Claim C5, counterexample: with a malformed ip ("bad" has no four
dot-separated parts) and an ISP containing a VPN brand, check_vpn_status
does not short-circuit to a zero-score assessment — keyword scoring
continues and the final score is 50 with the VPN flag set.  The claim as
stated demands risk_score = 0 for every malformed ip. -/
theorem c5_counterexample :
    (check_vpn_status "bad" (some nordMini) (ApiOutcome.fail "timeout")).risk_score = 50 ∧
    (check_vpn_status "bad" (some nordMini) (ApiOutcome.fail "timeout")).is_vpn = true := by
  decide

/-- Claim C5 as amended: only a missing geo record short-circuits, through
the catch-all handler, with risk_score = 0, is_vpn = false and an error
indicator; a malformed ip does not short-circuit — the last-octet pattern
signal is skipped (with only a debug note, and only when the address has
four dot-separated parts whose last is non-numeric) and scoring continues
with the remaining signals, so the score may be positive (it is 50 on the
counterexample input). -/
theorem c5_input_error_handling (ip : String) (api : ApiOutcome) :
    ((check_vpn_status ip none api).risk_score = 0 ∧
     (check_vpn_status ip none api).is_vpn = false ∧
     ("Error during VPN check: " ++ errorText) ∈
       (check_vpn_status ip none api).indicators) ∧
    (check_vpn_status "bad" (some nordMini) (ApiOutcome.fail "timeout")).risk_score = 50 := by
  obtain ⟨h1, h2, h3, h4, h5⟩ := check_none_fields ip api
  refine ⟨⟨h3, h1, ?_⟩, by decide⟩
  rw [h4]
  simp

/-- Claim C6: if the provider proxy flag of the geo record is set and the
other fields are benign (they match no keyword), the assessment scores at
least 30, crossing the "Medium" threshold on that signal alone (the flag
contributes +40 before clamping). -/
theorem c6_proxy_flag_medium (ip : String) (g : GeoRecord) (api : ApiOutcome)
    (hp : g.proxy = true) (_hb : matchesNoKeyword g) :
    30 ≤ (check_vpn_status ip (some g) api).risk_score :=
  check_risk_lower ip g api
    (le_trans (by norm_num) (preClamp_risk_proxy ip g api hp)) (by norm_num)

/-- Witness for claim C6 at a concrete input. -/
theorem c6_proxy_flag_medium_witness :
    proxyGeo.proxy = true ∧ matchesNoKeyword proxyGeo ∧
    30 ≤ (check_vpn_status "8.8.8.8" (some proxyGeo) ApiOutcome.noData).risk_score :=
  ⟨rfl, by decide,
   c6_proxy_flag_medium "8.8.8.8" proxyGeo ApiOutcome.noData rfl (by decide)⟩

/-- Claim C7: on the record with ISP "NordVPN Services", empty Org/AS,
country "Netherlands" and an unset proxy flag, the assessment contains the
indicator of the "nordvpn" keyword match and scores at least 15, for every
ip string and api outcome. -/
theorem c7_nordvpn_detection (ip : String) (api : ApiOutcome) :
    ("VPN keyword \"nordvpn\" found in ISP: NordVPN Services")
      ∈ (check_vpn_status ip (some nordGeo) api).indicators ∧
    15 ≤ (check_vpn_status ip (some nordGeo) api).risk_score := by
  have h80 : nordMid.risk_score = 80 := by decide
  have hmem : ("VPN keyword \"nordvpn\" found in ISP: NordVPN Services")
      ∈ nordMid.indicators := by decide
  have a2 := apiStage_adv api nordMid
  have a3 := patternStage_adv ip (apiStage api nordMid)
  have a4 := countryStage_adv (strLower nordGeo.country) (strLower nordGeo.isp)
    (patternStage ip (apiStage api nordMid))
  have epre : preClamp ip nordGeo api
      = countryStage (strLower nordGeo.country) (strLower nordGeo.isp)
          (patternStage ip (apiStage api nordMid)) := rfl
  constructor
  · show ("VPN keyword \"nordvpn\" found in ISP: NordVPN Services")
      ∈ (postClamp (strLower nordGeo.isp) nordGeo.isp (preClamp ip nordGeo api)).indicators
    apply (postClamp_adv _ _ _).1
    rw [epre]
    exact a4.2.2.2.1 _ (a3.2.2.2.1 _ (a2.2.2.2.1 _ hmem))
  · have hrisk : 80 ≤ (preClamp ip nordGeo api).risk_score := by
      rw [epre]
      have m2 := a2.2.2.1
      have m3 := a3.2.2.1
      have m4 := a4.2.2.1
      omega
    exact check_risk_lower ip nordGeo api (le_trans (by norm_num) hrisk) (by norm_num)

/-- Claim C8 (the reverse-DNS signal is modelled from the spec, since no
reverse-DNS lookup exists under src/): a failed or timed-out lookup adds a
failure entry to debug_info while the assessment still agrees with the
plain scorer on everything except the debug trail (no exception
propagates); a successful lookup whose hostname contains a hosting/VPN
keyword adds exactly +20 to the pre-clamp score together with an
indicator that survives to the final assessment. -/
theorem c8_reverse_dns_signal (ip : String) (g : GeoRecord) (api : ApiOutcome)
    (hst m : String)
    (hk : (rdns_keywords.any (fun k => strContains (strLower hst) k)) = true) :
    (coreEq (assess_with_rdns ip (some g) api (RdnsOutcome.fail m))
        (check_vpn_status ip (some g) api) ∧
      ("Reverse DNS lookup failed: " ++ m) ∈
        (assess_with_rdns ip (some g) api (RdnsOutcome.fail m)).debug_info) ∧
    ((rdnsStep (RdnsOutcome.host hst) (preClamp ip g api)).risk_score =
        (preClamp ip g api).risk_score + 20 ∧
      ("Hosting/VPN keyword in reverse DNS hostname: " ++ hst) ∈
        (assess_with_rdns ip (some g) api (RdnsOutcome.host hst)).indicators) := by
  refine ⟨⟨?_, ?_⟩, ?_, ?_⟩
  · show coreEq
      (postClamp (strLower g.isp) g.isp
        (rdnsStep (RdnsOutcome.fail m) (preClamp ip g api)))
      (postClamp (strLower g.isp) g.isp (preClamp ip g api))
    exact postClamp_congr _ _ (coreEq_appendDbg _ _)
  · show ("Reverse DNS lookup failed: " ++ m) ∈
      (postClamp (strLower g.isp) g.isp
        (rdnsStep (RdnsOutcome.fail m) (preClamp ip g api))).debug_info
    apply (postClamp_adv _ _ _).2.1
    show ("Reverse DNS lookup failed: " ++ m) ∈ (appendDbg _ _).debug_info
    simp
  · show (rdnsStep (RdnsOutcome.host hst) (preClamp ip g api)).risk_score = _
    unfold rdnsStep
    simp [hk]
  · show ("Hosting/VPN keyword in reverse DNS hostname: " ++ hst) ∈
      (postClamp (strLower g.isp) g.isp
        (rdnsStep (RdnsOutcome.host hst) (preClamp ip g api))).indicators
    apply (postClamp_adv _ _ _).1
    unfold rdnsStep
    simp [hk]

/-- Witness for claim C8 at a concrete input. -/
theorem c8_reverse_dns_signal_witness :
    (rdns_keywords.any (fun k => strContains (strLower "cloud.example.net") k)) = true ∧
    (rdnsStep (RdnsOutcome.host "cloud.example.net")
        (preClamp "8.8.8.8" emptyGeo ApiOutcome.noData)).risk_score =
      (preClamp "8.8.8.8" emptyGeo ApiOutcome.noData).risk_score + 20 :=
  ⟨by decide,
   ((c8_reverse_dns_signal "8.8.8.8" emptyGeo ApiOutcome.noData
      "cloud.example.net" "x" (by decide)).2).1⟩

/-- Claim C9, counterexample: the debug trail stores the lower-cased field
values, not the raw ones — on a record whose raw ISP is
"NordVPN Services", no debug entry contains that raw string. -/
theorem c9_counterexample :
    (check_vpn_status "8.8.8.8" (some nordGeo) ApiOutcome.noData).debug_info =
      ["ISP: nordvpn services", "Organization: ", "AS: "] ∧
    "ISP: NordVPN Services" ∉
      (check_vpn_status "8.8.8.8" (some nordGeo) ApiOutcome.noData).debug_info ∧
    ((check_vpn_status "8.8.8.8" (some nordGeo) ApiOutcome.noData).debug_info.all
      (fun d => !(strContains d "NordVPN Services"))) = true := by
  decide

/-- Claim C9 as amended: debug_info is always non-empty — on the normal
path it holds at least the lower-cased ISP/Organization/AS field values,
and on the caught-exception path the exception text is appended. -/
theorem c9_debug_info_populated (ip : String) (geo : Option GeoRecord)
    (api : ApiOutcome) :
    (check_vpn_status ip geo api).debug_info ≠ [] ∧
    (match geo with
     | some g =>
         ("ISP: " ++ strLower g.isp) ∈ (check_vpn_status ip geo api).debug_info ∧
         ("Organization: " ++ strLower g.org) ∈ (check_vpn_status ip geo api).debug_info ∧
         ("AS: " ++ strLower g.as_info) ∈ (check_vpn_status ip geo api).debug_info
     | none =>
         ("Exception: " ++ errorText) ∈ (check_vpn_status ip geo api).debug_info) := by
  cases geo with
  | none =>
    obtain ⟨_, _, _, _, h5⟩ := check_none_fields ip api
    refine ⟨?_, ?_⟩
    · rw [h5]
      simp
    · show ("Exception: " ++ errorText) ∈ (check_vpn_status ip none api).debug_info
      rw [h5]
      simp
  | some g =>
    have hm := preClamp_debug_mem ip g api
    have hpost := (postClamp_adv (strLower g.isp) g.isp (preClamp ip g api)).2.1
    exact ⟨List.ne_nil_of_mem (hpost _ hm.1), hpost _ hm.1, hpost _ hm.2.1,
      hpost _ hm.2.2⟩

/-- Claim C10: every addition to the risk score is accompanied by an
appended indicator, so an assessment with a positive score always has a
non-empty indicator list. -/
theorem c10_positive_score_has_indicators (ip : String) (geo : Option GeoRecord)
    (api : ApiOutcome) (h : 0 < (check_vpn_status ip geo api).risk_score) :
    (check_vpn_status ip geo api).indicators ≠ [] := by
  cases geo with
  | none =>
    rw [(check_none_fields ip api).2.2.2.1]
    simp
  | some g =>
    exact (postClamp_adv (strLower g.isp) g.isp (preClamp ip g api)).2.2.1
      (preClamp_goodInd ip g api) h

/-- Witness for claim C10 at a concrete input. -/
theorem c10_positive_score_has_indicators_witness :
    0 < (check_vpn_status "8.8.8.8" (some proxyGeo) ApiOutcome.noData).risk_score ∧
    (check_vpn_status "8.8.8.8" (some proxyGeo) ApiOutcome.noData).indicators ≠ [] :=
  ⟨by decide,
   c10_positive_score_has_indicators "8.8.8.8" (some proxyGeo) ApiOutcome.noData
     (by decide)⟩
